import Mathlib

/-!
Verification of AutoResSwitcher (src/main.py): a shallow embedding of the
display-mode control protocol, the process-polling auto-switch loop, the
game-discovery scanners and the configuration store, together with theorems
settling the specification claims.

Conventions of the embedding:
* Python dicts that act as records with possibly-missing keys become
  structures with `Option` fields; `dict.get(k)` is the field itself and
  `dict.get(k, d)` is `field.getD d`.
* The games store (a Python `dict` preserving insertion order) becomes an
  association list `List (String × GameEntry)`; insertion appends.
* Native OS facilities (display API status codes, file existence, directory
  trees, registry entries) are passed in explicitly as oracles/values.
* Python truthiness of an optional string (`not x`) is `strFalsy`.
-/

namespace ARS

/-! ## Small string helpers (Python string munging, translated) -/

/-- Python `s.lower()` (ASCII; the code only lowercases ASCII names). -/
def strLower (s : String) : String := String.mk (s.toList.map Char.toLower)

/-- Python `s.endswith(suffix)`. -/
def strEndsWith (s suffix : String) : Bool :=
  List.isSuffixOf suffix.toList s.toList

/-- Python `s.strip()` (whitespace from both ends). -/
def pyStrip (s : String) : String :=
  String.mk (((s.toList.dropWhile Char.isWhitespace).reverse.dropWhile Char.isWhitespace).reverse)

/-- `startsWithL hay needle`: `needle` is a prefix of `hay` (on char lists). -/
def startsWithL : List Char → List Char → Bool
  | _, [] => true
  | [], _ :: _ => false
  | c :: cs, d :: ds => c == d && startsWithL cs ds

/-- Python `needle in hay` on strings, as char lists. -/
def containsSub (needle : List Char) : List Char → Bool
  | [] => startsWithL [] needle
  | c :: t => startsWithL (c :: t) needle || containsSub needle t

/-- Python `hay.rfind(needle)`: index of the last occurrence, if any. -/
def rfindSub (needle : List Char) : List Char → Option Nat
  | [] => if startsWithL [] needle then some 0 else none
  | c :: rest =>
    match rfindSub needle rest with
    | some j => some (j + 1)
    | none => if startsWithL (c :: rest) needle then some 0 else none

/-- Python slice `s[:n]`. -/
def strTake (s : String) (n : Nat) : String := String.mk (s.toList.take n)

/-- Strip a given character from both ends of a char list (Python `strip(c)`). -/
def stripChar (c : Char) (l : List Char) : List Char :=
  ((l.dropWhile (· == c)).reverse.dropWhile (· == c)).reverse

/-- Python `s.strip(c)` for a double-quote character. -/
def stripQuotes (s : String) : String :=
  String.mk (stripChar (Char.ofNat 34) s.toList)

/-- Python `os.path.basename` for Windows paths (last `\`- or `/`-component). -/
def basename (p : String) : String :=
  String.mk (p.toList.foldl (fun acc c => if c == '\\' || c == '/' then [] else acc ++ [c]) [])

/-- Windows `os.path.join` for the simple two-component case used in the code. -/
def joinPath (a b : String) : String := a ++ "\\" ++ b

/-- Python truthiness test `not x` for an optional string: `None` or `""`. -/
def strFalsy : Option String → Bool
  | none => true
  | some s => s.isEmpty

/-- Python `x or d` for an optional string `x` and a string default `d`. -/
def strOr (o : Option String) (d : String) : String :=
  match o with
  | some s => if s.isEmpty then d else s
  | none => d

/-- Value of a nonempty all-digit char list, `none` otherwise. -/
def digitsVal (ds : List Char) : Option Nat :=
  if ds.isEmpty || !(ds.all Char.isDigit) then none
  else some (ds.foldl (fun a c => a * 10 + (c.toNat - 48)) 0)

/-- The decimal core of Python `int(s)`: strip whitespace, optional sign,
decimal digits; `none` when `int` would raise `ValueError`. -/
def pyIntParse (s : String) : Option Int :=
  match (pyStrip s).toList with
  | [] => none
  | c :: rest =>
    if c == '+' then (digitsVal rest).map (fun n => (n : Int))
    else if c == '-' then (digitsVal rest).map (fun n => -(n : Int))
    else (digitsVal (c :: rest)).map (fun n => (n : Int))

/-- A single-quote character, used in the error-message literals. -/
def sq : String := String.singleton (Char.ofNat 39)

/-! ## Constants (module-level settings in main.py) -/

def IMAGES_DIR : String := "images"
def DEFAULT_WIDTH : Int := 1920
def DEFAULT_HEIGHT : Int := 1080
def DISCOVERY_SCAN_LIMIT : Nat := 500

/-! ## Data model: game entries and the configuration document -/

/-- One value of the `games` mapping: a Python dict whose keys may be absent. -/
structure GameEntry where
  name : Option String := none
  process : Option String := none
  width : Option Int := none
  height : Option Int := none
  refresh_hz : Option Int := none
  image_path : Option String := none
  exe_path : Option String := none
  source : Option String := none
deriving DecidableEq

/-- The games store: insertion-ordered mapping processKey -> GameEntry. -/
abbrev Games := List (String × GameEntry)

/-- Python `games.get(k)` / `games[k]` on the store. -/
def gamesGet : Games → String → Option GameEntry
  | [], _ => none
  | p :: t, k => if p.1 = k then some p.2 else gamesGet t k

/-- Mutation of the entry at key `k` (Python `games[k][...] = ...`). -/
def gamesSet : Games → String → (GameEntry → GameEntry) → Games
  | [], _, _ => []
  | p :: t, k, f => (if p.1 = k then (p.1, f p.2) else p) :: gamesSet t k f

/-- Python truthiness of a stored entry dict (`not g`): under the
none-means-absent-key convention an entry is falsy iff it has no fields at
all (the empty dict). -/
def entryFalsy (e : GameEntry) : Bool :=
  e.name == none && e.process == none && e.width == none && e.height == none &&
  e.refresh_hz == none && e.image_path == none && e.exe_path == none && e.source == none

/-- `_safe_filename`: collapse runs of characters outside `[a-zA-Z0-9._-]`
into single underscores (after `strip()`); empty result becomes `"game"`. -/
def goodChar (c : Char) : Bool :=
  c.isAlpha || c.isDigit || c == '.' || c == '_' || c == '-'

mutual
def collapseGood : List Char → List Char
  | [] => []
  | c :: rest => if goodChar c then c :: collapseGood rest else '_' :: collapseSkip rest
def collapseSkip : List Char → List Char
  | [] => []
  | c :: rest => if goodChar c then c :: collapseGood rest else collapseSkip rest
end

def safe_filename (name : String) : String :=
  let out := String.mk (collapseGood (pyStrip name).toList)
  if out.isEmpty then "game" else out

/-- The cs2 preset of `default_config`. -/
def cs2Preset : GameEntry :=
  { name := some "Counter-Strike 2"
    process := some "cs2.exe"
    width := some 1440
    height := some 1080
    refresh_hz := some 144
    image_path := some (joinPath IMAGES_DIR "cs2.png")
    exe_path := none
    source := some "preset" }

/-- The valorant preset of `default_config`. -/
def valorantPreset : GameEntry :=
  { name := some "Valorant"
    process := some "VALORANT-Win64-Shipping.exe"
    width := some 1568
    height := some 1080
    refresh_hz := some 144
    image_path := some (joinPath IMAGES_DIR "valorant.png")
    exe_path := none
    source := some "preset" }

/-- The `games` mapping of `default_config()`. -/
def defaultGames : Games :=
  [("cs2.exe", cs2Preset), ("valorant-win64-shipping.exe", valorantPreset)]

/-- The persisted configuration document: the two top-level JSON fields,
each possibly absent in a parsed document. -/
structure ConfigDoc where
  custom_scan_paths : Option (List String)
  games : Option Games
deriving DecidableEq

/-- `default_config()`. -/
def default_config : ConfigDoc :=
  { custom_scan_paths := some [], games := some defaultGames }

/-- What `load_config` finds on disk: no file, an unparsable file, or a
parsed document (with possibly-missing top-level fields). -/
inductive LoadInput where
  | missing : LoadInput
  | malformed : LoadInput
  | parsed : ConfigDoc → LoadInput

/-- `load_config()`: result is `(returned cfg, cfg passed to save_config)`. -/
def load_config : LoadInput → ConfigDoc × ConfigDoc
  | .missing => (default_config, default_config)
  | .malformed => (default_config, default_config)
  | .parsed d =>
    let cfg := if d.games.isNone then default_config else d
    let cfg := if cfg.custom_scan_paths.isNone then { cfg with custom_scan_paths := some [] } else cfg
    (cfg, cfg)

/-! ## DisplayController: `set_resolution` (two-phase native protocol) -/

/-- The mode requested from the OS: width/height always, refresh only when a
positive rate was supplied (`DM_DISPLAYFREQUENCY` set iff `refresh` is some). -/
structure ReqMode where
  width : Int
  height : Int
  refresh : Option Int
deriving DecidableEq

/-- The native display API, as an oracle returning `ChangeDisplaySettingsW`
status codes for the `CDS_TEST` and `CDS_UPDATEREGISTRY` invocations. -/
structure DisplayOS where
  testStatus : ReqMode → Int
  applyStatus : ReqMode → Int

/-- One native `ChangeDisplaySettingsW` invocation. -/
inductive NativeCall where
  | test : ReqMode → NativeCall
  | apply : ReqMode → NativeCall
deriving DecidableEq

/-- The requested mode built by `set_resolution` from its arguments. -/
def reqMode (width height : Int) (refresh_hz : Option Int) : ReqMode :=
  { width := width
    height := height
    refresh := match refresh_hz with
      | some r => if r > 0 then some r else none
      | none => none }

/-- Failure message for a rejected `CDS_TEST` call. -/
def testFailMsg (code : Int) : String :=
  "Windows konnte die Auflösung nicht testen (Code " ++ toString code ++ ")."

/-- Failure message for a rejected `CDS_UPDATEREGISTRY` call. -/
def applyFailMsg (code : Int) : String :=
  "Windows konnte die Auflösung nicht setzen (Code " ++ toString code ++ ")."

/-- `set_resolution`: result is `((ok, message), native-call trace)`. -/
def set_resolution (os : DisplayOS) (width height : Int) (refresh_hz : Option Int) :
    (Bool × String) × List NativeCall :=
  let m := reqMode width height refresh_hz
  let res_test := os.testStatus m
  if res_test ≠ 0 then
    ((false, testFailMsg res_test), [NativeCall.test m])
  else
    let res_apply := os.applyStatus m
    if res_apply ≠ 0 then
      ((false, applyFailMsg res_apply), [NativeCall.test m, NativeCall.apply m])
    else
      ((true, "OK"), [NativeCall.test m, NativeCall.apply m])

/-! ## AutoSwitchLoop: `_find_active_game`, `_apply_game_resolution_if_needed`,
`_watch_loop` -/

/-- One `set_resolution` invocation issued by the loop (its arguments, with
the refresh argument already reduced by the `r if r > 0 else None` pattern). -/
structure SetResCall where
  width : Int
  height : Int
  refresh : Option Int
deriving DecidableEq

/-- `_find_active_game`: first store entry whose declared process name
(lowercased) is in the running set wins; returns its lowercased key. -/
def find_active_game (games : Games) (running : List String) : Option String :=
  match List.find? (fun p => running.contains (strLower (p.2.process.getD p.1))) games with
  | some p => some (strLower p.1)
  | none => none

/-- `_apply_game_resolution_if_needed`: takes the matched key, returns the new
`last_applied_process` and the `set_resolution` calls issued this tick.
The result of `set_resolution` is discarded, exactly as in the source. -/
def apply_game_resolution_if_needed (os : DisplayOS) (games : Games)
    (last : Option String) (proc_key : Option String) :
    Option String × List SetResCall :=
  if proc_key = last then (last, [])
  else
    match proc_key with
    | none =>
      match last with
      | some _ =>
        let _ := set_resolution os DEFAULT_WIDTH DEFAULT_HEIGHT none
        (none, [⟨DEFAULT_WIDTH, DEFAULT_HEIGHT, none⟩])
      | none => (none, [])
    | some k =>
      match gamesGet games k with
      | none => (last, [])
      | some g =>
        if entryFalsy g then (last, [])
        else
        let w := g.width.getD DEFAULT_WIDTH
        let h := g.height.getD DEFAULT_HEIGHT
        let r := g.refresh_hz.getD 0
        let rq := if r > 0 then some r else none
        let _ := set_resolution os w h rq
        (some k, [⟨w, h, rq⟩])

/-- One iteration of `_watch_loop`: snapshot -> match -> apply-if-needed. -/
def watch_tick (os : DisplayOS) (games : Games) (last : Option String)
    (running : List String) : Option String × List SetResCall :=
  apply_game_resolution_if_needed os games last (find_active_game games running)

/-- `_watch_loop` run over a finite sequence of observed running-process
sets: final `last_applied_process` and the concatenated apply-call trace. -/
def watch_run (os : DisplayOS) (games : Games) :
    Option String → List (List String) → Option String × List SetResCall
  | last, [] => (last, [])
  | last, running :: rest =>
    let t := watch_tick os games last running
    let r := watch_run os games t.1 rest
    (r.1, t.2 ++ r.2)

/-! ## DiscoveryEngine: executable picker, registry scanner, merge -/

/- A directory tree: files directly inside, and named subdirectories
(in `os.listdir` order). -/
mutual
inductive FsTree where
  | node : List String → FsDirs → FsTree
inductive FsDirs where
  | nil : FsDirs
  | cons : String → FsTree → FsDirs → FsDirs
end

/-- File name looks like an executable: `f.lower().endswith(".exe")`. -/
def isExeName (f : String) : Bool := strEndsWith (strLower f) ".exe"

/- The `os.walk` phase of `_pick_exe_in_folder`: visit a directory at a
given depth; when `depth > depth_limit` prune the branch (skip its files and
subdirectories, as `dirs[:] = []; continue` does), else return the first
`.exe` among its files or recurse top-down into its subdirectories. -/
mutual
def walkPick (path : String) (t : FsTree) (depth depth_limit : Nat) : Option String :=
  match t with
  | .node files subs =>
    if depth > depth_limit then none
    else
      match files.find? isExeName with
      | some f => some (joinPath path f)
      | none => walkPickDirs path subs depth depth_limit
def walkPickDirs (path : String) (ds : FsDirs) (depth depth_limit : Nat) : Option String :=
  match ds with
  | .nil => none
  | .cons name d rest =>
    match walkPick (joinPath path name) d (depth + 1) depth_limit with
    | some r => some r
    | none => walkPickDirs path rest depth depth_limit
end

/-- `_pick_exe_in_folder`: `none` when the folder is empty-named or not a
directory (`tree = none`); otherwise prefer a root `.exe`, then the
depth-bounded walk. -/
def pick_exe_in_folder (folder : String) (tree : Option FsTree) (depth_limit : Nat) : Option String :=
  if folder.isEmpty then none
  else
    match tree with
    | none => none
    | some t =>
      match t with
      | .node files _ =>
        match files.find? isExeName with
        | some f => some (joinPath folder f)
        | none => walkPick folder t 0 depth_limit

/-- `_looks_like_exe_path`: extract an `.exe` path from an icon/uninstall
string (strip quotes, drop a trailing `,0` icon index, truncate after the
last `.exe`), keeping it only if the file exists (`fsExists` oracle). -/
def looks_like_exe_path (fsExists : String → Bool) (s0 : String) : Option String :=
  if s0.isEmpty then none
  else
    let s1 := stripQuotes (pyStrip s0)
    let s2 :=
      if s1.toList.contains ',' && strEndsWith (strLower s1) ".exe,0" then
        match rfindSub ".exe".toList (strLower s1).toList with
        | some i => strTake s1 (i + 4)
        | none => s1
      else s1
    let s3 :=
      if containsSub ".exe".toList (strLower s2).toList then
        match rfindSub ".exe".toList (strLower s2).toList with
        | some i => strTake s2 (i + 4)
        | none => s2
      else s2
    match strEndsWith (strLower s3) ".exe" && fsExists s3 with
    | true => some s3
    | false => none

/-- One uninstall registry entry, as collected by `_get_uninstall_entries`
(absent registry values already defaulted to `""`). -/
structure UninstallEntry where
  name : String
  publisher : String
  install_location : String
  display_icon : String
  uninstall_string : String
deriving DecidableEq

/-- A discovered candidate (the dicts produced by the `discover_*` scanners);
also reused for the candidate dicts consumed by the merge step, whose `get`
calls tolerate missing keys. -/
structure Candidate where
  name : Option String := none
  exe_path : Option String := none
  process : Option String := none
  source : Option String := none
deriving DecidableEq

/-- The keyword list of `discover_from_uninstall_entries`. -/
def uninstallKeywords : List String :=
  ["ubisoft", "ubisoft connect", "blizzard", "battle.net", "riot", "valorant"]

/-- `_pick_exe_in_folder` reached through the filesystem oracle
(`fsDir folder = none` models `not os.path.isdir(folder)`). -/
def pick_exe_via_fs (fsDir : String → Option FsTree) (folder : String) (depth_limit : Nat) :
    Option String :=
  pick_exe_in_folder folder (fsDir folder) depth_limit

/-- The per-entry body of `discover_from_uninstall_entries`: keyword filter,
then icon/uninstall-string extraction with folder-scan fallback, then origin
classification (ubisoft / battlenet / riot / registry, in that order). -/
def uninstallCandidate (fsExists : String → Bool) (fsDir : String → Option FsTree)
    (e : UninstallEntry) : Option Candidate :=
  let name := pyStrip e.name
  let publisher := pyStrip e.publisher
  let hay := strLower (name ++ " " ++ publisher)
  if !(uninstallKeywords.any (fun k => containsSub k.toList hay.toList)) then none
  else
    let exe :=
      match looks_like_exe_path fsExists e.display_icon with
      | some x => some x
      | none =>
        match looks_like_exe_path fsExists e.uninstall_string with
        | some x => some x
        | none =>
          let install_loc := pyStrip e.install_location
          if install_loc.isEmpty then none
          else pick_exe_via_fs fsDir install_loc 2
    match exe with
    | none => none
    | some x =>
      let source :=
        if containsSub "ubisoft".toList hay.toList then "ubisoft"
        else if containsSub "battle.net".toList hay.toList
                || containsSub "blizzard".toList hay.toList then "battlenet"
        else if containsSub "riot".toList hay.toList then "riot"
        else "registry"
      some { name := some name, exe_path := some x
             process := some (basename x), source := some source }

/-- `discover_from_uninstall_entries` over a given entry list, with the
`DISCOVERY_SCAN_LIMIT` cap. -/
def discover_from_uninstall_entries (fsExists : String → Bool)
    (fsDir : String → Option FsTree) : List UninstallEntry → List Candidate → List Candidate
  | [], acc => acc
  | e :: rest, acc =>
    match uninstallCandidate fsExists fsDir e with
    | none => discover_from_uninstall_entries fsExists fsDir rest acc
    | some c =>
      let acc := acc ++ [c]
      if acc.length ≥ DISCOVERY_SCAN_LIMIT then acc
      else discover_from_uninstall_entries fsExists fsDir rest acc

/-! ## Merge of discovered candidates into the store
(`App._merge_discovered_games_into_config`) -/

/-- The new store entry inserted for a candidate whose key is not yet
present. -/
def newEntryFromCandidate (proc_key : String) (g : Candidate) : GameEntry :=
  { name := some (strOr g.name proc_key)
    process := some (strOr g.process proc_key)
    width := some DEFAULT_WIDTH
    height := some DEFAULT_HEIGHT
    refresh_hz := some 144
    image_path := some (joinPath IMAGES_DIR (safe_filename proc_key ++ ".png"))
    exe_path := g.exe_path
    source := some (strOr g.source "scan") }

/-- The backfill applied to an existing entry: set `exe_path`/`source` from
the candidate only when the stored value is falsy and the candidate's is
truthy. -/
def backfillEntry (g : Candidate) (e : GameEntry) : GameEntry :=
  let e1 := if strFalsy e.exe_path && !strFalsy g.exe_path then
      { e with exe_path := g.exe_path } else e
  if strFalsy e1.source && !strFalsy g.source then
      { e1 with source := g.source } else e1

/-- The per-candidate body of the merge loop: existing keys only get
`exe_path`/`source` backfilled when currently falsy; new keys are inserted
with baseline resolution and refresh 144. Returns the store and the
increment of the `added` counter. -/
def merge_candidate (games : Games) (g : Candidate) : Games × Nat :=
  let proc_key := strLower (g.process.getD "")
  if proc_key.isEmpty then (games, 0)
  else
    match gamesGet games proc_key with
    | some _ => (gamesSet games proc_key (backfillEntry g), 0)
    | none => (games ++ [(proc_key, newEntryFromCandidate proc_key g)], 1)

/-- The merge loop over all discovered candidates. -/
def merge_loop (games : Games) : List Candidate → Games × Nat
  | [] => (games, 0)
  | g :: rest =>
    let r := merge_candidate games g
    let r2 := merge_loop r.1 rest
    (r2.1, r.2 + r2.2)

/-- Option value is `None` or equals the given default
(Python `x in (None, d)`). -/
def isNoneOr (o : Option Int) (d : Int) : Bool := o == none || o == some d

/-- The preset adjustment applied to the `cs2.exe` entry after the merge
loop: `setdefault` the name, and force 1440×1080 only while the stored
resolution is still the (possibly unset) baseline pair. -/
def cs2Adjust (e : GameEntry) : GameEntry :=
  let e1 := { e with name := some (e.name.getD "Counter-Strike 2") }
  if isNoneOr e1.width DEFAULT_WIDTH && isNoneOr e1.height DEFAULT_HEIGHT then
    { e1 with width := some 1440, height := some 1080 }
  else e1

/-- The preset adjustment applied to the `valorant-win64-shipping.exe`
entry after the merge loop. -/
def valorantAdjust (e : GameEntry) : GameEntry :=
  let e1 := { e with name := some (e.name.getD "Valorant") }
  if isNoneOr e1.width DEFAULT_WIDTH && isNoneOr e1.height DEFAULT_HEIGHT then
    { e1 with width := some 1568, height := some 1080 }
  else e1

/-- `if key in games:` guard around an in-place entry mutation. -/
def enforceKey (games : Games) (k : String) (f : GameEntry → GameEntry) : Games :=
  if (gamesGet games k).isSome then gamesSet games k f else games

/-- The preset-enforcement step at the end of
`_merge_discovered_games_into_config` (lines after the merge loop). -/
def enforce_presets (games : Games) : Games :=
  enforceKey (enforceKey games "cs2.exe" cs2Adjust) "valorant-win64-shipping.exe" valorantAdjust

/-- `_merge_discovered_games_into_config` on an already-discovered candidate
list: merge loop, then preset enforcement; returns the new store (which is
also what `save_config` persists) and the added count. -/
def merge_discovered_games_into_config (games : Games) (discovered : List Candidate) :
    Games × Nat :=
  let r := merge_loop games discovered
  (enforce_presets r.1, r.2)

/-! ## User edits: `_parse_int` and `save_selected_game` -/

/-- The error message of `_parse_int`. -/
def invalidFieldMsg (field s : String) : String :=
  "Ungültiger Wert für " ++ field ++ ": " ++ sq ++ s ++ sq

/-- The `ValueError` message of Python `int()` on a non-numeric literal. -/
def pyIntErrMsg (s : String) : String :=
  "invalid literal for int() with base 10: " ++ sq ++ s ++ sq

/-- `App._parse_int`: positive integer or a descriptive error. -/
def parse_int (s field : String) : Except String Int :=
  match pyIntParse s with
  | none => Except.error (invalidFieldMsg field s)
  | some v => if v ≤ 0 then Except.error (invalidFieldMsg field s) else Except.ok v

/-- The placeholder entry created when the selected key is not yet stored. -/
def stubEntry (proc_key : String) : GameEntry :=
  { name := some proc_key, process := some proc_key }

/-- The refresh-field text actually parsed: `str(rs).strip() or "0"`. -/
def refreshStr (rs : String) : String :=
  if (pyStrip rs).isEmpty then "0" else pyStrip rs

/-- The status colour used by `_set_status_msg` for error reports. -/
def ERROR_COLOR : String := "#fca5a5"

/-- The default status colour of `_set_status_msg`. -/
def INFO_COLOR : String := "#93c5fd"

/-- Outcome of `save_selected_game`: the in-memory store afterwards, the
store passed to `save_config` (if any), and the status message with its
colour. -/
structure SaveResult where
  games : Games
  persisted : Option Games
  status : String
  statusColor : String
deriving DecidableEq

/-- `App.save_selected_game`, as a function of the store, the selected
process key and the three text-field contents. -/
def save_selected_game (games : Games) (selected : Option String)
    (ws hs rs : String) : SaveResult :=
  match selected with
  | none => ⟨games, none, "Bitte ein Spiel auswählen.", ERROR_COLOR⟩
  | some proc_key =>
    let games1 :=
      match gamesGet games proc_key with
      | none => games ++ [(proc_key, stubEntry proc_key)]
      | some _ => games
    match parse_int ws "Breite" with
    | .error m => ⟨games1, none, m, ERROR_COLOR⟩
    | .ok w =>
      match parse_int hs "Höhe" with
      | .error m => ⟨games1, none, m, ERROR_COLOR⟩
      | .ok h =>
        match pyIntParse (refreshStr rs) with
        | none => ⟨games1, none, pyIntErrMsg (refreshStr rs), ERROR_COLOR⟩
        | some r =>
          if r < 0 then ⟨games1, none, "", ERROR_COLOR⟩
          else
            let games2 := gamesSet games1 proc_key (fun e =>
              { e with width := some w, height := some h, refresh_hz := some r })
            ⟨games2, some games2, "Gespeichert.", INFO_COLOR⟩

/-! ## Fixed oracles used for concrete instantiations -/

/-- A display API that accepts every request. -/
def alwaysOkOS : DisplayOS := ⟨fun _ => 0, fun _ => 0⟩

/-- A display API that rejects every request in both phases. -/
def alwaysFailOS : DisplayOS := ⟨fun _ => -1, fun _ => -1⟩

/-- A display API whose `CDS_TEST` phase rejects with code -1. -/
def testRejOS : DisplayOS := ⟨fun _ => -1, fun _ => 0⟩

/-- A display API whose test passes but whose apply phase rejects with 5. -/
def applyRejOS : DisplayOS := ⟨fun _ => 0, fun _ => 5⟩

/-! ## Association-list lemmas for the games store -/

theorem gamesGet_gamesSet_self (games : Games) (k : String) (f : GameEntry → GameEntry) :
    gamesGet (gamesSet games k f) k = (gamesGet games k).map f := by
  induction games with
  | nil => rfl
  | cons p t ih =>
    by_cases hp : p.1 = k
    · simp [gamesGet, gamesSet, hp]
    · simp [gamesGet, gamesSet, hp, ih]

theorem gamesGet_gamesSet_ne (games : Games) (k k' : String) (f : GameEntry → GameEntry)
    (hne : k' ≠ k) : gamesGet (gamesSet games k f) k' = gamesGet games k' := by
  induction games with
  | nil => rfl
  | cons p t ih =>
    by_cases hp : p.1 = k
    · have hp' : p.1 ≠ k' := fun hc => hne (hc ▸ hp)
      simp [gamesGet, gamesSet, hp, hp', Ne.symm hne, ih]
    · simp only [gamesSet, gamesGet, if_neg hp]
      by_cases hq : p.1 = k'
      · simp [gamesGet, hq]
      · simp [gamesGet, hq, ih]

theorem gamesSet_map_fst (games : Games) (k : String) (f : GameEntry → GameEntry) :
    (gamesSet games k f).map Prod.fst = games.map Prod.fst := by
  induction games with
  | nil => rfl
  | cons p t ih =>
    by_cases hp : p.1 = k
    · simp [gamesSet, hp, ih]
    · simp [gamesSet, hp, ih]

theorem gamesGet_isSome_of_mem {games : Games} {p : String × GameEntry}
    (hp : p ∈ games) : (gamesGet games p.1).isSome := by
  induction games with
  | nil => cases hp
  | cons q t ih =>
    rcases List.mem_cons.mp hp with rfl | hp
    · simp [gamesGet]
    · by_cases hq : q.1 = p.1
      · simp [gamesGet, hq]
      · simp [gamesGet, hq, ih hp]

/-! ## Claim theorems -/

/-- C1: with the seeded default store and the running-set sequence
`{} -> {"cs2.exe"} -> {}` observed over three ticks starting from no applied
profile, the loop issues exactly `apply(1440,1080,144)` on tick 2 and the
baseline `apply(1920,1080,no forced refresh)` on tick 3, and nothing else. -/
theorem claim_c1 (os : DisplayOS) :
    watch_run os defaultGames none [[], ["cs2.exe"], []] =
      (none, [⟨1440, 1080, some 144⟩, ⟨1920, 1080, none⟩]) := rfl

/-- C2: a tick's outcome never depends on the display API's reported
statuses (so a failed apply still records the matched key); when the matched
key resolves to a stored (non-empty) profile the new last-applied key is the
matched key; and when the matched key equals the last-applied key the tick
issues no `set_resolution` call at all. -/
theorem claim_c2 (games : Games) (os os' : DisplayOS) (last : Option String)
    (running : List String) :
    watch_tick os games last running = watch_tick os' games last running ∧
    (∀ k g, find_active_game games running = some k → gamesGet games k = some g →
      entryFalsy g = false → (watch_tick os games last running).1 = some k) ∧
    (find_active_game games running = last →
      (watch_tick os games last running).2 = []) := by
  refine ⟨rfl, ?_, ?_⟩
  · intro k g hk hg hgt
    unfold watch_tick apply_game_resolution_if_needed
    rw [hk]
    by_cases hkl : (some k : Option String) = last
    · rw [if_pos hkl]
      exact hkl.symm
    · rw [if_neg hkl]
      simp [hg, hgt]
  · intro hlast
    unfold watch_tick apply_game_resolution_if_needed
    rw [hlast, if_pos rfl]

/-- C2 witness: with an always-failing display API, a matched `cs2.exe`
still becomes the last-applied key, and a tick whose match equals the
last-applied key issues no call. -/
theorem claim_c2_witness :
    (watch_tick alwaysFailOS defaultGames none ["cs2.exe"]).1 = some "cs2.exe" ∧
    (watch_tick alwaysFailOS defaultGames (some "cs2.exe") ["cs2.exe"]).2 = [] :=
  ⟨(claim_c2 defaultGames alwaysFailOS alwaysOkOS none ["cs2.exe"]).2.1 "cs2.exe"
      cs2Preset (by decide) (by decide) (by decide),
   (claim_c2 defaultGames alwaysFailOS alwaysOkOS (some "cs2.exe") ["cs2.exe"]).2.2
      (by decide)⟩

/-- C3: `set_resolution` follows the two-phase protocol: a nonzero test
status yields failure carrying that code with no native apply call at all; a
zero test status with a nonzero apply status yields failure carrying the
apply code; two zero statuses yield success. -/
theorem claim_c3 (os : DisplayOS) (width height : Int) (refresh_hz : Option Int) :
    (os.testStatus (reqMode width height refresh_hz) ≠ 0 →
      set_resolution os width height refresh_hz =
        ((false, testFailMsg (os.testStatus (reqMode width height refresh_hz))),
          [NativeCall.test (reqMode width height refresh_hz)]) ∧
      ∀ m, NativeCall.apply m ∉ (set_resolution os width height refresh_hz).2) ∧
    (os.testStatus (reqMode width height refresh_hz) = 0 →
      os.applyStatus (reqMode width height refresh_hz) ≠ 0 →
      set_resolution os width height refresh_hz =
        ((false, applyFailMsg (os.applyStatus (reqMode width height refresh_hz))),
          [NativeCall.test (reqMode width height refresh_hz),
           NativeCall.apply (reqMode width height refresh_hz)])) ∧
    (os.testStatus (reqMode width height refresh_hz) = 0 →
      os.applyStatus (reqMode width height refresh_hz) = 0 →
      set_resolution os width height refresh_hz =
        ((true, "OK"),
          [NativeCall.test (reqMode width height refresh_hz),
           NativeCall.apply (reqMode width height refresh_hz)])) := by
  refine ⟨?_, ?_, ?_⟩
  · intro ht
    constructor
    · simp [set_resolution, ht]
    · intro m hm
      simp [set_resolution, ht] at hm
  · intro ht ha
    simp [set_resolution, ht, ha]
  · intro ht ha
    simp [set_resolution, ht, ha]

/-- C3 witness: the three protocol outcomes at concrete oracles. -/
theorem claim_c3_witness :
    set_resolution testRejOS 1440 1080 (some 144) =
      ((false, testFailMsg (-1)), [NativeCall.test (reqMode 1440 1080 (some 144))]) ∧
    set_resolution applyRejOS 1440 1080 (some 144) =
      ((false, applyFailMsg 5),
        [NativeCall.test (reqMode 1440 1080 (some 144)),
         NativeCall.apply (reqMode 1440 1080 (some 144))]) ∧
    set_resolution alwaysOkOS 1440 1080 (some 144) =
      ((true, "OK"),
        [NativeCall.test (reqMode 1440 1080 (some 144)),
         NativeCall.apply (reqMode 1440 1080 (some 144))]) :=
  ⟨((claim_c3 testRejOS 1440 1080 (some 144)).1 (by decide)).1,
   (claim_c3 applyRejOS 1440 1080 (some 144)).2.1 rfl (by decide),
   (claim_c3 alwaysOkOS 1440 1080 (some 144)).2.2 rfl rfl⟩

/-- The folder tree `sub/deep/deep2/game.exe` of the C6 scenario. -/
def c6Tree : FsTree :=
  .node [] (.cons "sub" (.node [] (.cons "deep" (.node [] (.cons "deep2"
    (.node ["game.exe"] .nil) .nil)) .nil)) .nil)

/-- C6: on a folder whose only executable sits at depth 3
(`sub/deep/deep2/game.exe`), the executable picker finds nothing with depth
limit 2 and finds the executable with depth limit 3. -/
theorem claim_c6 :
    pick_exe_in_folder "C:\\g" (some c6Tree) 2 = none ∧
    pick_exe_in_folder "C:\\g" (some c6Tree) 3 =
      some "C:\\g\\sub\\deep\\deep2\\game.exe" := by decide

/-- C10: when every store key is already lowercase, a matched key returned
by `_find_active_game` always resolves in the store, so the
profile-not-found early return of `_apply_game_resolution_if_needed` (the
lookup coming back empty-handed) is unreachable: on a fresh match of a
stored non-empty profile the tick records the key and issues a call. -/
theorem claim_c10 (games : Games) (running : List String) (os : DisplayOS)
    (last : Option String) (k : String)
    (hlower : ∀ p ∈ games, strLower p.1 = p.1)
    (hfind : find_active_game games running = some k)
    (hne : some k ≠ last) :
    (gamesGet games k).isSome ∧
    (∀ g, gamesGet games k = some g → entryFalsy g = false →
      (watch_tick os games last running).1 = some k ∧
      (watch_tick os games last running).2 ≠ []) := by
  have hsome : (gamesGet games k).isSome := by
    unfold find_active_game at hfind
    cases hf : List.find? (fun p => running.contains (strLower (p.2.process.getD p.1))) games with
    | none => rw [hf] at hfind; exact absurd hfind (by simp)
    | some p =>
      rw [hf] at hfind
      have hk : k = p.1 := by
        have := hlower p (List.mem_of_find?_eq_some hf)
        simpa [this] using hfind.symm
      subst hk
      exact gamesGet_isSome_of_mem (List.mem_of_find?_eq_some hf)
  refine ⟨hsome, ?_⟩
  intro g hg hgt
  unfold watch_tick apply_game_resolution_if_needed
  rw [hfind, if_neg hne]
  simp [hg, hgt]

/-- C10 witness: the lowercase-keyed default store at a concrete tick. -/
theorem claim_c10_witness :
    (gamesGet defaultGames "cs2.exe").isSome ∧
    (watch_tick alwaysFailOS defaultGames none ["cs2.exe"]).1 = some "cs2.exe" ∧
    (watch_tick alwaysFailOS defaultGames none ["cs2.exe"]).2 ≠ [] := by
  have h := claim_c10 defaultGames ["cs2.exe"] alwaysFailOS none "cs2.exe"
    (by decide) (by decide) (by decide)
  exact ⟨h.1, (h.2 cs2Preset (by decide) (by decide)).1,
    (h.2 cs2Preset (by decide) (by decide)).2⟩

/-! ## Field behaviour of the merge backfill -/

theorem backfillEntry_name (g : Candidate) (e : GameEntry) :
    (backfillEntry g e).name = e.name := by
  unfold backfillEntry
  by_cases h1 : (strFalsy e.exe_path && !strFalsy g.exe_path) = true <;>
    by_cases h2 : (strFalsy e.source && !strFalsy g.source) = true <;>
    simp [h1, h2]

theorem backfillEntry_width (g : Candidate) (e : GameEntry) :
    (backfillEntry g e).width = e.width := by
  unfold backfillEntry
  by_cases h1 : (strFalsy e.exe_path && !strFalsy g.exe_path) = true <;>
    by_cases h2 : (strFalsy e.source && !strFalsy g.source) = true <;>
    simp [h1, h2]

theorem backfillEntry_height (g : Candidate) (e : GameEntry) :
    (backfillEntry g e).height = e.height := by
  unfold backfillEntry
  by_cases h1 : (strFalsy e.exe_path && !strFalsy g.exe_path) = true <;>
    by_cases h2 : (strFalsy e.source && !strFalsy g.source) = true <;>
    simp [h1, h2]

theorem backfillEntry_refresh (g : Candidate) (e : GameEntry) :
    (backfillEntry g e).refresh_hz = e.refresh_hz := by
  unfold backfillEntry
  by_cases h1 : (strFalsy e.exe_path && !strFalsy g.exe_path) = true <;>
    by_cases h2 : (strFalsy e.source && !strFalsy g.source) = true <;>
    simp [h1, h2]

theorem backfillEntry_image (g : Candidate) (e : GameEntry) :
    (backfillEntry g e).image_path = e.image_path := by
  unfold backfillEntry
  by_cases h1 : (strFalsy e.exe_path && !strFalsy g.exe_path) = true <;>
    by_cases h2 : (strFalsy e.source && !strFalsy g.source) = true <;>
    simp [h1, h2]

theorem backfillEntry_exe (g : Candidate) (e : GameEntry) :
    (backfillEntry g e).exe_path =
      if strFalsy e.exe_path && !strFalsy g.exe_path then g.exe_path else e.exe_path := by
  unfold backfillEntry
  by_cases h1 : (strFalsy e.exe_path && !strFalsy g.exe_path) = true <;>
    by_cases h2 : (strFalsy e.source && !strFalsy g.source) = true <;>
    simp [h1, h2]

theorem backfillEntry_source (g : Candidate) (e : GameEntry) :
    (backfillEntry g e).source =
      if strFalsy e.source && !strFalsy g.source then g.source else e.source := by
  unfold backfillEntry
  by_cases h1 : (strFalsy e.exe_path && !strFalsy g.exe_path) = true <;>
    by_cases h2 : (strFalsy e.source && !strFalsy g.source) = true <;>
    simp [h1, h2]

/-- C4: merging a discovered candidate whose processKey already exists in
the store never touches the entry's name, width, height, refresh rate or
image path, adds no entry, and writes the candidate's executable path and
origin only into fields that were empty or unset. -/
theorem claim_c4 (games : Games) (g : Candidate) (e : GameEntry)
    (hpk : (strLower (g.process.getD "")).isEmpty = false)
    (he : gamesGet games (strLower (g.process.getD "")) = some e) :
    (merge_candidate games g).2 = 0 ∧
    (merge_candidate games g).1.map Prod.fst = games.map Prod.fst ∧
    (gamesGet (merge_candidate games g).1 (strLower (g.process.getD ""))).map
      GameEntry.name = some e.name ∧
    (gamesGet (merge_candidate games g).1 (strLower (g.process.getD ""))).map
      GameEntry.width = some e.width ∧
    (gamesGet (merge_candidate games g).1 (strLower (g.process.getD ""))).map
      GameEntry.height = some e.height ∧
    (gamesGet (merge_candidate games g).1 (strLower (g.process.getD ""))).map
      GameEntry.refresh_hz = some e.refresh_hz ∧
    (gamesGet (merge_candidate games g).1 (strLower (g.process.getD ""))).map
      GameEntry.image_path = some e.image_path ∧
    (gamesGet (merge_candidate games g).1 (strLower (g.process.getD ""))).map
      GameEntry.exe_path =
      some (if strFalsy e.exe_path && !strFalsy g.exe_path then g.exe_path else e.exe_path) ∧
    (gamesGet (merge_candidate games g).1 (strLower (g.process.getD ""))).map
      GameEntry.source =
      some (if strFalsy e.source && !strFalsy g.source then g.source else e.source) := by
  have hm : merge_candidate games g =
      (gamesSet games (strLower (g.process.getD "")) (backfillEntry g), 0) := by
    simp only [merge_candidate]
    rw [hpk, he]
    rfl
  rw [hm]
  refine ⟨rfl, gamesSet_map_fst _ _ _, ?_, ?_, ?_, ?_, ?_, ?_, ?_⟩ <;>
    rw [gamesGet_gamesSet_self, he] <;>
    simp [backfillEntry_name, backfillEntry_width, backfillEntry_height,
      backfillEntry_refresh, backfillEntry_image, backfillEntry_exe, backfillEntry_source]

/-- The rediscovered candidate used to instantiate C4: it targets the
existing cs2.exe preset, carries an executable path and a different origin,
and has no resolution of its own. -/
def rediscoveredCs2 : Candidate :=
  { name := some "Counter-Strike 2", exe_path := some "C:\\cs2\\cs2.exe",
    process := some "CS2.exe", source := some "steam" }

/-- C4 witness: merging `rediscoveredCs2` into the default store backfills
only the empty `exe_path` of the cs2 preset and changes nothing else. -/
theorem claim_c4_witness :
    (merge_candidate defaultGames rediscoveredCs2).2 = 0 ∧
    (merge_candidate defaultGames rediscoveredCs2).1.map Prod.fst =
      defaultGames.map Prod.fst ∧
    (gamesGet (merge_candidate defaultGames rediscoveredCs2).1
      (strLower (rediscoveredCs2.process.getD ""))).map GameEntry.name =
      some cs2Preset.name ∧
    (gamesGet (merge_candidate defaultGames rediscoveredCs2).1
      (strLower (rediscoveredCs2.process.getD ""))).map GameEntry.width =
      some cs2Preset.width ∧
    (gamesGet (merge_candidate defaultGames rediscoveredCs2).1
      (strLower (rediscoveredCs2.process.getD ""))).map GameEntry.height =
      some cs2Preset.height ∧
    (gamesGet (merge_candidate defaultGames rediscoveredCs2).1
      (strLower (rediscoveredCs2.process.getD ""))).map GameEntry.refresh_hz =
      some cs2Preset.refresh_hz ∧
    (gamesGet (merge_candidate defaultGames rediscoveredCs2).1
      (strLower (rediscoveredCs2.process.getD ""))).map GameEntry.image_path =
      some cs2Preset.image_path ∧
    (gamesGet (merge_candidate defaultGames rediscoveredCs2).1
      (strLower (rediscoveredCs2.process.getD ""))).map GameEntry.exe_path =
      some (some "C:\\cs2\\cs2.exe") ∧
    (gamesGet (merge_candidate defaultGames rediscoveredCs2).1
      (strLower (rediscoveredCs2.process.getD ""))).map GameEntry.source =
      some (some "preset") :=
  claim_c4 defaultGames rediscoveredCs2 cs2Preset (by decide) (by decide)

/-! ## C7: the keyword-filtered registry scanner -/

theorem discover_single (fsE : String → Bool) (fsD : String → Option FsTree)
    (e : UninstallEntry) (c : Candidate)
    (hc : uninstallCandidate fsE fsD e = some c) :
    discover_from_uninstall_entries fsE fsD [e] [] = [c] := by
  unfold discover_from_uninstall_entries
  rw [hc]
  rfl

/-- The registry entry of the C7 scenario. -/
def ubiEntry : UninstallEntry :=
  { name := "Ubisoft Connect", publisher := "", install_location := "",
    display_icon := "C:\\Games\\u.exe,0", uninstall_string := "" }

/-- C7: a registry entry named "Ubisoft Connect" with display icon
`C:\Games\u.exe,0` yields (whenever that file exists) exactly one candidate
with executable path `C:\Games\u.exe` (the `,0` suffix stripped) and origin
`ubisoft`. -/
theorem claim_c7 (fsExists : String → Bool) (fsDir : String → Option FsTree)
    (h : fsExists "C:\\Games\\u.exe" = true) :
    discover_from_uninstall_entries fsExists fsDir [ubiEntry] [] =
      [{ name := some "Ubisoft Connect", exe_path := some "C:\\Games\\u.exe",
         process := some "u.exe", source := some "ubisoft" }] := by
  have h1 : looks_like_exe_path fsExists ubiEntry.display_icon =
      some "C:\\Games\\u.exe" := by
    show (match fsExists "C:\\Games\\u.exe" with
          | true => some "C:\\Games\\u.exe"
          | false => none) = some "C:\\Games\\u.exe"
    rw [h]
  apply discover_single
  unfold uninstallCandidate
  rw [h1]
  rfl

/-- C7 witness: the concrete oracle under which only `C:\Games\u.exe`
exists. -/
theorem claim_c7_witness :
    discover_from_uninstall_entries (fun s => s == "C:\\Games\\u.exe")
      (fun _ => none) [ubiEntry] [] =
      [{ name := some "Ubisoft Connect", exe_path := some "C:\\Games\\u.exe",
         process := some "u.exe", source := some "ubisoft" }] :=
  claim_c7 (fun s => s == "C:\\Games\\u.exe") (fun _ => none) (by decide)

/-! ## C8: the one-time preset seeding after the merge -/

theorem gamesGet_enforceKey_self (games : Games) (k : String) (f : GameEntry → GameEntry) :
    gamesGet (enforceKey games k f) k = (gamesGet games k).map f := by
  unfold enforceKey
  by_cases h : (gamesGet games k).isSome
  · rw [if_pos h, gamesGet_gamesSet_self]
  · rw [if_neg h]
    cases hg : gamesGet games k with
    | none => simp
    | some g => rw [hg] at h; simp at h

theorem gamesGet_enforceKey_ne (games : Games) (k k' : String) (f : GameEntry → GameEntry)
    (hne : k' ≠ k) : gamesGet (enforceKey games k f) k' = gamesGet games k' := by
  unfold enforceKey
  by_cases h : (gamesGet games k).isSome
  · rw [if_pos h, gamesGet_gamesSet_ne _ _ _ _ hne]
  · rw [if_neg h]

theorem gamesGet_enforce_cs2 (games : Games) :
    gamesGet (enforce_presets games) "cs2.exe" =
      (gamesGet games "cs2.exe").map cs2Adjust := by
  unfold enforce_presets
  rw [gamesGet_enforceKey_ne _ _ _ _ (by decide), gamesGet_enforceKey_self]

theorem gamesGet_enforce_val (games : Games) :
    gamesGet (enforce_presets games) "valorant-win64-shipping.exe" =
      (gamesGet games "valorant-win64-shipping.exe").map valorantAdjust := by
  unfold enforce_presets
  rw [gamesGet_enforceKey_self, gamesGet_enforceKey_ne _ _ _ _ (by decide)]

theorem gamesGet_enforce_other (games : Games) (k : String)
    (h1 : k ≠ "cs2.exe") (h2 : k ≠ "valorant-win64-shipping.exe") :
    gamesGet (enforce_presets games) k = gamesGet games k := by
  unfold enforce_presets
  rw [gamesGet_enforceKey_ne _ _ _ _ h2, gamesGet_enforceKey_ne _ _ _ _ h1]

theorem cs2Adjust_eq (e : GameEntry) :
    cs2Adjust e =
      if (isNoneOr e.width DEFAULT_WIDTH && isNoneOr e.height DEFAULT_HEIGHT) = true then
        { e with name := some (e.name.getD "Counter-Strike 2"),
                 width := some 1440, height := some 1080 }
      else { e with name := some (e.name.getD "Counter-Strike 2") } := rfl

theorem valorantAdjust_eq (e : GameEntry) :
    valorantAdjust e =
      if (isNoneOr e.width DEFAULT_WIDTH && isNoneOr e.height DEFAULT_HEIGHT) = true then
        { e with name := some (e.name.getD "Valorant"),
                 width := some 1568, height := some 1080 }
      else { e with name := some (e.name.getD "Valorant") } := rfl

theorem cs2Adjust_idem (e : GameEntry) : cs2Adjust (cs2Adjust e) = cs2Adjust e := by
  rcases e with ⟨n, pr, w, hg, r, im, ex, so⟩
  simp only [cs2Adjust_eq]
  by_cases h : (isNoneOr w DEFAULT_WIDTH && isNoneOr hg DEFAULT_HEIGHT) = true
  · rw [if_pos h]
    simp [isNoneOr, DEFAULT_WIDTH, DEFAULT_HEIGHT]
  · rw [if_neg h]
    simp
    intro h1 h2
    exact absurd (by simp [h1, h2]) h

theorem valorantAdjust_idem (e : GameEntry) :
    valorantAdjust (valorantAdjust e) = valorantAdjust e := by
  rcases e with ⟨n, pr, w, hg, r, im, ex, so⟩
  simp only [valorantAdjust_eq]
  by_cases h : (isNoneOr w DEFAULT_WIDTH && isNoneOr hg DEFAULT_HEIGHT) = true
  · rw [if_pos h]
    simp [isNoneOr, DEFAULT_WIDTH, DEFAULT_HEIGHT]
  · rw [if_neg h]
    simp
    intro h1 h2
    exact absurd (by simp [h1, h2]) h

theorem cs2Adjust_resolution (e : GameEntry) :
    ((cs2Adjust e).width, (cs2Adjust e).height) =
      if isNoneOr e.width DEFAULT_WIDTH && isNoneOr e.height DEFAULT_HEIGHT then
        (some 1440, some 1080) else (e.width, e.height) := by
  rcases e with ⟨n, pr, w, hg, r, im, ex, so⟩
  by_cases h : (isNoneOr w DEFAULT_WIDTH && isNoneOr hg DEFAULT_HEIGHT) = true <;>
    simp [cs2Adjust, h]

theorem valorantAdjust_resolution (e : GameEntry) :
    ((valorantAdjust e).width, (valorantAdjust e).height) =
      if isNoneOr e.width DEFAULT_WIDTH && isNoneOr e.height DEFAULT_HEIGHT then
        (some 1568, some 1080) else (e.width, e.height) := by
  rcases e with ⟨n, pr, w, hg, r, im, ex, so⟩
  by_cases h : (isNoneOr w DEFAULT_WIDTH && isNoneOr hg DEFAULT_HEIGHT) = true <;>
    simp [valorantAdjust, h]

theorem cs2Adjust_refresh (e : GameEntry) : (cs2Adjust e).refresh_hz = e.refresh_hz := by
  rcases e with ⟨n, pr, w, hg, r, im, ex, so⟩
  by_cases h : (isNoneOr w DEFAULT_WIDTH && isNoneOr hg DEFAULT_HEIGHT) = true <;>
    simp [cs2Adjust, h]

theorem valorantAdjust_refresh (e : GameEntry) :
    (valorantAdjust e).refresh_hz = e.refresh_hz := by
  rcases e with ⟨n, pr, w, hg, r, im, ex, so⟩
  by_cases h : (isNoneOr w DEFAULT_WIDTH && isNoneOr hg DEFAULT_HEIGHT) = true <;>
    simp [valorantAdjust, h]

theorem cs2Adjust_image (e : GameEntry) : (cs2Adjust e).image_path = e.image_path := by
  rcases e with ⟨n, pr, w, hg, r, im, ex, so⟩
  by_cases h : (isNoneOr w DEFAULT_WIDTH && isNoneOr hg DEFAULT_HEIGHT) = true <;>
    simp [cs2Adjust, h]

theorem valorantAdjust_image (e : GameEntry) :
    (valorantAdjust e).image_path = e.image_path := by
  rcases e with ⟨n, pr, w, hg, r, im, ex, so⟩
  by_cases h : (isNoneOr w DEFAULT_WIDTH && isNoneOr hg DEFAULT_HEIGHT) = true <;>
    simp [valorantAdjust, h]

/-- C8: after the merge, the two named presets get their fixed non-baseline
resolutions (1440×1080 and 1568×1080) exactly when the stored resolution is
still the (possibly-unset, hence effectively) baseline pair 1920×1080; any
other stored resolution, the refresh rate, the image, and every other key
are left untouched; and the step is idempotent, so it is a one-time seed and
never overrides a later user edit away from the baseline. -/
theorem claim_c8 (games : Games) (e ev : GameEntry)
    (he : gamesGet games "cs2.exe" = some e)
    (hev : gamesGet games "valorant-win64-shipping.exe" = some ev) :
    (gamesGet (enforce_presets games) "cs2.exe").map (fun x => (x.width, x.height)) =
      some (if isNoneOr e.width DEFAULT_WIDTH && isNoneOr e.height DEFAULT_HEIGHT then
        (some 1440, some 1080) else (e.width, e.height)) ∧
    (gamesGet (enforce_presets games) "cs2.exe").map GameEntry.refresh_hz =
      some e.refresh_hz ∧
    (gamesGet (enforce_presets games) "cs2.exe").map GameEntry.image_path =
      some e.image_path ∧
    (gamesGet (enforce_presets games) "valorant-win64-shipping.exe").map
      (fun x => (x.width, x.height)) =
      some (if isNoneOr ev.width DEFAULT_WIDTH && isNoneOr ev.height DEFAULT_HEIGHT then
        (some 1568, some 1080) else (ev.width, ev.height)) ∧
    (gamesGet (enforce_presets games) "valorant-win64-shipping.exe").map
      GameEntry.refresh_hz = some ev.refresh_hz ∧
    (gamesGet (enforce_presets games) "valorant-win64-shipping.exe").map
      GameEntry.image_path = some ev.image_path ∧
    (∀ k, k ≠ "cs2.exe" → k ≠ "valorant-win64-shipping.exe" →
      gamesGet (enforce_presets games) k = gamesGet games k) ∧
    (∀ k, gamesGet (enforce_presets (enforce_presets games)) k =
      gamesGet (enforce_presets games) k) := by
  refine ⟨?_, ?_, ?_, ?_, ?_, ?_, ?_, ?_⟩
  · rw [gamesGet_enforce_cs2, he]
    simp only [Option.map_some']
    rw [cs2Adjust_resolution]
  · rw [gamesGet_enforce_cs2, he]
    simp only [Option.map_some']
    rw [cs2Adjust_refresh]
  · rw [gamesGet_enforce_cs2, he]
    simp only [Option.map_some']
    rw [cs2Adjust_image]
  · rw [gamesGet_enforce_val, hev]
    simp only [Option.map_some']
    rw [valorantAdjust_resolution]
  · rw [gamesGet_enforce_val, hev]
    simp only [Option.map_some']
    rw [valorantAdjust_refresh]
  · rw [gamesGet_enforce_val, hev]
    simp only [Option.map_some']
    rw [valorantAdjust_image]
  · intro k h1 h2
    exact gamesGet_enforce_other games k h1 h2
  · intro k
    by_cases h1 : k = "cs2.exe"
    · subst h1
      rw [gamesGet_enforce_cs2, gamesGet_enforce_cs2, he]
      simp only [Option.map_some']
      rw [cs2Adjust_idem]
    · by_cases h2 : k = "valorant-win64-shipping.exe"
      · subst h2
        rw [gamesGet_enforce_val, gamesGet_enforce_val, hev]
        simp only [Option.map_some']
        rw [valorantAdjust_idem]
      · rw [gamesGet_enforce_other _ _ h1 h2]

/-- The store used to instantiate C8: cs2 still at the baseline pair,
valorant already edited away from it. -/
def probeCs2Entry : GameEntry :=
  { name := some "Counter-Strike 2", width := some 1920, height := some 1080,
    refresh_hz := some 60, image_path := some "a.png" }

def probeValorantEntry : GameEntry :=
  { name := some "Valorant", width := some 1600, height := some 900,
    refresh_hz := some 75, image_path := some "b.png" }

def presetProbeGames : Games :=
  [("cs2.exe", probeCs2Entry),
   ("valorant-win64-shipping.exe", probeValorantEntry),
   ("other.exe", { name := some "Other", width := some 1024, height := some 768 })]

/-- C8 witness: on `presetProbeGames` the baseline cs2 entry is forced to
1440×1080, the edited valorant entry keeps 1600×900, refresh/image/other
keys are untouched, and re-running the step changes nothing. -/
theorem claim_c8_witness :
    (gamesGet (enforce_presets presetProbeGames) "cs2.exe").map
      (fun x => (x.width, x.height)) = some (some 1440, some 1080) ∧
    (gamesGet (enforce_presets presetProbeGames) "cs2.exe").map
      GameEntry.refresh_hz = some (some 60) ∧
    (gamesGet (enforce_presets presetProbeGames) "cs2.exe").map
      GameEntry.image_path = some (some "a.png") ∧
    (gamesGet (enforce_presets presetProbeGames) "valorant-win64-shipping.exe").map
      (fun x => (x.width, x.height)) = some (some 1600, some 900) ∧
    (gamesGet (enforce_presets presetProbeGames) "valorant-win64-shipping.exe").map
      GameEntry.refresh_hz = some (some 75) ∧
    (gamesGet (enforce_presets presetProbeGames) "valorant-win64-shipping.exe").map
      GameEntry.image_path = some (some "b.png") ∧
    gamesGet (enforce_presets presetProbeGames) "other.exe" =
      gamesGet presetProbeGames "other.exe" ∧
    gamesGet (enforce_presets (enforce_presets presetProbeGames)) "cs2.exe" =
      gamesGet (enforce_presets presetProbeGames) "cs2.exe" := by
  have h := claim_c8 presetProbeGames probeCs2Entry probeValorantEntry
    (by decide) (by decide)
  exact ⟨h.1, h.2.1, h.2.2.1, h.2.2.2.1, h.2.2.2.2.1, h.2.2.2.2.2.1,
    h.2.2.2.2.2.2.1 "other.exe" (by decide) (by decide),
    h.2.2.2.2.2.2.2 "cs2.exe"⟩

/-! ## C5: recovery behaviour of `load_config` -/

/-- C5 counterexample: a persisted document that lacks only
`custom_scan_paths` (its `games` field present but empty) is *not* reset to
the seeded default — `load_config` keeps its games, refuting the claim that
lacking either top-level field yields exactly the default configuration. -/
theorem claim_c5_counterexample :
    (load_config (.parsed { custom_scan_paths := none, games := some [] })).1 ≠
      default_config := by decide

/-- C5 (amended): a missing file, a malformed document, or a document
lacking the `games` field makes `load_config` return exactly the seeded
default configuration and persist it; a document that has `games` but lacks
`custom_scan_paths` keeps its games, gets an empty `custom_scan_paths`, and
is persisted in that repaired form; a document with both fields is returned
and persisted unchanged. -/
theorem claim_c5 :
    load_config .missing = (default_config, default_config) ∧
    load_config .malformed = (default_config, default_config) ∧
    (∀ d : ConfigDoc, d.games = none →
      load_config (.parsed d) = (default_config, default_config)) ∧
    (∀ d : ConfigDoc, ∀ gs, d.games = some gs → d.custom_scan_paths = none →
      load_config (.parsed d) =
        ({ custom_scan_paths := some [], games := some gs },
         { custom_scan_paths := some [], games := some gs })) ∧
    (∀ d : ConfigDoc, d.games.isSome = true → d.custom_scan_paths.isSome = true →
      load_config (.parsed d) = (d, d)) := by
  refine ⟨rfl, rfl, ?_, ?_, ?_⟩
  · intro d hd
    rcases d with ⟨csp, gs⟩
    change gs = none at hd
    subst hd
    rfl
  · intro d gs hg hc
    rcases d with ⟨csp, gs'⟩
    change gs' = some gs at hg
    change csp = none at hc
    subst hg
    subst hc
    rfl
  · intro d hg hc
    rcases d with ⟨csp, gs⟩
    change gs.isSome = true at hg
    change csp.isSome = true at hc
    cases gs with
    | none => simp at hg
    | some x =>
      cases csp with
      | none => simp at hc
      | some y => rfl

/-- C5 witness: the document `{games: {}}` (no custom_scan_paths) loads as
itself with an empty `custom_scan_paths` list, not as the seeded default. -/
theorem claim_c5_witness :
    load_config (.parsed { custom_scan_paths := none, games := some [] }) =
      ({ custom_scan_paths := some [], games := some [] },
       { custom_scan_paths := some [], games := some [] }) :=
  claim_c5.2.2.2.1 { custom_scan_paths := none, games := some [] } [] rfl rfl

/-! ## C9: rejection of invalid edits in `save_selected_game` -/

/-- Width/height text the claim calls invalid: non-numeric or non-positive. -/
def badDimB (s : String) : Bool :=
  match pyIntParse s with
  | none => true
  | some v => decide (v ≤ 0)

/-- Refresh text the claim calls invalid: parses to a negative number. -/
def negRefreshB (rs : String) : Bool :=
  match pyIntParse (refreshStr rs) with
  | some v => decide (v < 0)
  | none => false

theorem parse_int_ok_bad (s f : String) (v : Int)
    (h : parse_int s f = Except.ok v) : badDimB s = false := by
  unfold parse_int at h
  unfold badDimB
  cases hp : pyIntParse s with
  | none => rw [hp] at h; exact Except.noConfusion h
  | some w =>
    rw [hp] at h
    have h' : (if w ≤ 0 then Except.error (invalidFieldMsg f s)
        else Except.ok w) = Except.ok v := h
    show decide (w ≤ 0) = false
    by_cases hw : w ≤ 0
    · rw [if_pos hw] at h'
      exact Except.noConfusion h'
    · simp [hw]

/-- C9 counterexample: submitting a non-numeric width for a selected key not
yet in the store is rejected without persisting, but the in-memory store is
modified: a placeholder entry for the key is added, refuting "no entry is
added". -/
theorem claim_c9_counterexample :
    (save_selected_game [] (some "x.exe") "abc" "1080" "").persisted = none ∧
    (save_selected_game [] (some "x.exe") "abc" "1080" "").statusColor = ERROR_COLOR ∧
    (save_selected_game [] (some "x.exe") "abc" "1080" "").games ≠ [] := by decide

/-- C9 (amended): an edit with non-numeric or non-positive width or height,
or a negative refresh rate, is rejected: nothing is persisted, the status is
reported in the error colour, and no existing profile changes; when the
selected key already exists the store is completely unmodified, and when it
does not, the only in-memory change is a placeholder entry holding just
name and process. -/
theorem claim_c9 (games : Games) (k ws hs rs : String)
    (hbad : (badDimB ws || badDimB hs || negRefreshB rs) = true) :
    (save_selected_game games (some k) ws hs rs).persisted = none ∧
    (save_selected_game games (some k) ws hs rs).statusColor = ERROR_COLOR ∧
    ((gamesGet games k).isSome = true →
      (save_selected_game games (some k) ws hs rs).games = games) ∧
    ((save_selected_game games (some k) ws hs rs).games = games ∨
      ((gamesGet games k).isNone = true ∧
        (save_selected_game games (some k) ws hs rs).games =
          games ++ [(k, stubEntry k)])) := by
  cases hg : gamesGet games k with
  | none =>
    have hform : ∃ m, save_selected_game games (some k) ws hs rs =
        ⟨games ++ [(k, stubEntry k)], none, m, ERROR_COLOR⟩ := by
      simp only [save_selected_game]
      rw [hg]
      cases hw : parse_int ws "Breite" with
      | error m => exact ⟨m, rfl⟩
      | ok w =>
        have hbws := parse_int_ok_bad _ _ _ hw
        cases hh : parse_int hs "Höhe" with
        | error m => exact ⟨m, rfl⟩
        | ok h =>
          have hbhs := parse_int_ok_bad _ _ _ hh
          cases hr : pyIntParse (refreshStr rs) with
          | none => exact ⟨_, rfl⟩
          | some r =>
            by_cases hneg : r < 0
            · exact ⟨"", by simp [hneg]⟩
            · exfalso
              have hnr : negRefreshB rs = false := by
                unfold negRefreshB
                rw [hr]
                simp [hneg]
              rw [hbws, hbhs, hnr] at hbad
              simp at hbad
    obtain ⟨m, hm⟩ := hform
    rw [hm]
    refine ⟨rfl, rfl, ?_, Or.inr ⟨rfl, rfl⟩⟩
    intro hsome
    simp at hsome
  | some e0 =>
    have hform : ∃ m, save_selected_game games (some k) ws hs rs =
        ⟨games, none, m, ERROR_COLOR⟩ := by
      simp only [save_selected_game]
      rw [hg]
      cases hw : parse_int ws "Breite" with
      | error m => exact ⟨m, rfl⟩
      | ok w =>
        have hbws := parse_int_ok_bad _ _ _ hw
        cases hh : parse_int hs "Höhe" with
        | error m => exact ⟨m, rfl⟩
        | ok h =>
          have hbhs := parse_int_ok_bad _ _ _ hh
          cases hr : pyIntParse (refreshStr rs) with
          | none => exact ⟨_, rfl⟩
          | some r =>
            by_cases hneg : r < 0
            · exact ⟨"", by simp [hneg]⟩
            · exfalso
              have hnr : negRefreshB rs = false := by
                unfold negRefreshB
                rw [hr]
                simp [hneg]
              rw [hbws, hbhs, hnr] at hbad
              simp at hbad
    obtain ⟨m, hm⟩ := hform
    rw [hm]
    exact ⟨rfl, rfl, fun _ => rfl, Or.inl rfl⟩

/-- C9 witness: a non-positive width for the stored cs2 profile is rejected
with nothing persisted and the store unchanged. -/
theorem claim_c9_witness :
    (save_selected_game defaultGames (some "cs2.exe") "0" "1080" "60").persisted = none ∧
    (save_selected_game defaultGames (some "cs2.exe") "0" "1080" "60").statusColor =
      ERROR_COLOR ∧
    (save_selected_game defaultGames (some "cs2.exe") "0" "1080" "60").games =
      defaultGames ∧
    ((save_selected_game defaultGames (some "cs2.exe") "0" "1080" "60").games =
        defaultGames ∨
      ((gamesGet defaultGames "cs2.exe").isNone = true ∧
        (save_selected_game defaultGames (some "cs2.exe") "0" "1080" "60").games =
          defaultGames ++ [("cs2.exe", stubEntry "cs2.exe")])) := by
  have h := claim_c9 defaultGames "cs2.exe" "0" "1080" "60" (by decide)
  exact ⟨h.1, h.2.1, h.2.2.1 (by decide), h.2.2.2⟩

end ARS
